import Mathlib

/-!
Verification development for the cognee-explorer repository.

The repository consists of a FastAPI server (src/server.py) exposing a
knowledge-base facade (add, cognify, search, reset) and three direct
graph-store endpoints (list documents, delete document, graph dump), plus
a demo script (src/cognee_example.py).

This file gives a shallow embedding of the pure computations performed by
those handlers: strings are modelled as lists of characters, the Neo4j
property graph as a record of node and edge lists, each Cypher query as a
Lean function over that record, and each HTTP handler as a function from
the outcome of its store or facade calls to a response value.  Resource
handling (driver and session lifetime) is modelled by an explicit trace
record reflecting the control flow of the Python code.
-/

namespace Cognee

/-- Strings are modelled as lists of characters so that slicing,
length and concatenation reduce by kernel computation. -/
abbrev Str := List Char

/-- Ellipsis marker appended by the truncation branches in server.py. -/
def ellipsis : Str := "...".toList

/-- Whitespace set stripped by the Python str.strip method:
space, tab, newline, carriage return, vertical tab, form feed. -/
def isPyWs (c : Char) : Bool :=
  c == ' ' || c == '\t' || c == '\n' || c == '\r' ||
  c == Char.ofNat 11 || c == Char.ofNat 12

/-- Python str.strip: drop leading and trailing whitespace. -/
def pyStrip (s : Str) : Str :=
  ((s.dropWhile isPyWs).reverse.dropWhile isPyWs).reverse

/-- Python replace of newline by space, as on line 143 of server.py. -/
def collapseNl (s : Str) : Str :=
  s.map (fun c => if c == '\n' then ' ' else c)

/-!
Model of the search result normalization loop, lines 90 to 104 of
src/server.py.  The Python loop dispatches on the runtime type of each
element of the sequence returned by cognee.search, in this order:
str, dict, object with a text attribute, anything else.  The inductive
type below encodes the result of that dispatch, so each constructor
corresponds to exactly one branch of the if chain.
-/

/-- Value found under the search underscore result key of a dict result:
either a Python list (modelled by the list of the final string forms of
its elements) or any non-list value (modelled by its str form). -/
inductive SRVal where
  | list (elems : List Str)
  | nonList (s : Str)
  deriving DecidableEq, Repr

/-- One element of the sequence returned by cognee.search, classified as
the if chain on lines 93 to 104 of server.py classifies it:
a plain str, a dict (carrying the value of its search underscore result
key, none when the key is absent), a non-str non-dict object with a text
attribute (carrying that attribute), or any other object (carrying its
str form). -/
inductive SearchResult where
  | pyStr (s : Str)
  | pyDict (sr : Option SRVal)
  | withText (t : Str)
  | otherObj (s : Str)
  deriving DecidableEq, Repr

/-- One iteration of the answers accumulation loop, lines 92 to 104 of
src/server.py.  The str branch appends the string; the dict branch reads
the search underscore result key with default empty list, extends the
accumulator with the whole list when the value is a list and otherwise
appends the str form of the value; the text branch appends the text
attribute; the final branch appends the str form. -/
def answersStep (answers : List Str) (result : SearchResult) : List Str :=
  match result with
  | .pyStr s => answers ++ [s]
  | .pyDict sr =>
      match sr.getD (SRVal.list []) with
      | .list l => answers ++ l
      | .nonList s => answers ++ [s]
  | .withText t => answers ++ [t]
  | .otherObj s => answers ++ [s]

/-- Model of the whole parsing loop of the search handler, lines 90 to
104 of src/server.py: a fold of the loop body over the result sequence,
starting from the empty answers list.  The truthiness guard on line 91
skips the loop for an empty sequence, which the fold absorbs. -/
def searchAnswers (results : List SearchResult) : List Str :=
  results.foldl answersStep []

/-- Per-element contribution of the normalization loop, written as a
standalone function: the list of strings a single result element adds to
the answers list. -/
def normalizeContribution (result : SearchResult) : List Str :=
  match result with
  | .pyStr s => [s]
  | .pyDict sr =>
      match sr.getD (SRVal.list []) with
      | .list l => l
      | .nonList s => [s]
  | .withText t => [t]
  | .otherObj s => [s]

end Cognee

namespace Cognee

/-!
Model of the Neo4j property graph that the three direct endpoints of
src/server.py query.  A node carries its internal element id, its list
of labels, and the properties that the queries in server.py read: the
id, name, text and created underscore at properties and the chunk index.
An edge carries the element ids of its endpoints and its relationship
type.  Neo4j guarantees that edges never dangle and that element ids are
unique; theorems state these invariants as hypotheses where needed.
-/

/-- Property-graph node with the properties read by server.py. -/
structure Node where
  elementId : Nat
  labels : List Str
  id : Option Str
  name : Option Str
  text : Option Str
  created_at : Option Int
  chunk_index : Option Int
  deriving DecidableEq, Repr

/-- Directed typed relationship between two nodes, by element id. -/
structure Edge where
  src : Nat
  tgt : Nat
  typ : Str
  deriving DecidableEq, Repr

/-- State of the property graph. -/
structure Graph where
  nodes : List Node
  edges : List Edge
  deriving DecidableEq, Repr

/-- Label DocumentChunk used by the Cypher queries in server.py. -/
def lblDocumentChunk : Str := "DocumentChunk".toList

/-- Label TextDocument used by the Cypher queries in server.py. -/
def lblTextDocument : Str := "TextDocument".toList

/-- Label TextSummary used by the orphan sweep query in server.py. -/
def lblTextSummary : Str := "TextSummary".toList

/-- Internal label filtered out on line 204 of server.py. -/
def lblInternal : Str := "__Node__".toList

/-- Fallback type name on line 204 of server.py. -/
def typeUnknown : Str := "Unknown".toList

/-- Relationship type linking a chunk to its document. -/
def relIsPartOf : Str := "is_part_of".toList

/-- Relationship type linking a node to its summary. -/
def relHasSummary : Str := "has_summary".toList

/-- Test whether a node carries a label. -/
def hasLabel (n : Node) (l : Str) : Bool := n.labels.contains l

/-- Resolve an element id to its node, first match in node order. -/
def findNode (g : Graph) (eid : Nat) : Option Node :=
  g.nodes.find? (fun n => n.elementId == eid)

/-- Stable insertion of an element into a list under a Boolean order,
used to model the Cypher ORDER BY clause. -/
def insertLe {α : Type} (le : α → α → Bool) (a : α) : List α → List α
  | [] => [a]
  | b :: bs => if le a b then a :: b :: bs else b :: insertLe le a bs

/-- Stable insertion sort under a Boolean order. -/
def sortLe {α : Type} (le : α → α → Bool) : List α → List α
  | [] => []
  | a :: as => insertLe le a (sortLe le as)

/-- Cypher ordering on created underscore at values, with null ordered
above every concrete value, oriented for a descending sort: the first
argument may come first when its key is greater or equal. -/
def cypherGeCreated (a b : Option Int) : Bool :=
  match a, b with
  | none, _ => true
  | some _, none => false
  | some x, some y => y ≤ x

/-- Row set of the document listing query on lines 135 to 141 of
src/server.py: every pair of a chunk node and a document node joined by
an is underscore part underscore of edge, where the chunk carries the
DocumentChunk label and chunk index zero and the document carries the
TextDocument label.  Each row keeps both nodes; the projection to the
returned columns happens in the Python loop. -/
def docChunkRows (g : Graph) : List (Node × Node) :=
  g.edges.filterMap (fun e =>
    if e.typ == relIsPartOf then
      match findNode g e.src, findNode g e.tgt with
      | some c, some d =>
          if hasLabel c lblDocumentChunk && hasLabel d lblTextDocument &&
              c.chunk_index == some 0 then
            some (c, d)
          else none
      | _, _ => none
    else none)

/-- Ordering of rows by document creation timestamp, descending. -/
def rowGe (r1 r2 : Node × Node) : Bool :=
  cypherGeCreated r1.2.created_at r2.2.created_at

/-- Preview computation of the document listing handler: the Cypher
substring of the first 200 characters of the chunk text (null text and a
null substring both collapse to the empty string through the Python or
default on line 143), newlines replaced by spaces, stripped, and
truncated to 150 characters plus an ellipsis marker when longer than
150, as on lines 143 and 147 of src/server.py. -/
def previewOf (t : Option Str) : Str :=
  let preview := pyStrip (collapseNl ((t.getD []).take 200))
  if 150 < preview.length then preview.take 150 ++ ellipsis else preview

/-- Projection of one row of the document listing, lines 144 to 149 of
src/server.py. -/
structure DocSummary where
  id : Option Str
  name : Option Str
  preview : Str
  created_at : Option Int
  deriving DecidableEq, Repr

/-- Model of the document listing endpoint, lines 128 to 152 of
src/server.py: the join rows ordered by document creation timestamp
descending, each projected to id, name, preview and timestamp. -/
def list_documents (g : Graph) : List DocSummary :=
  (sortLe rowGe (docChunkRows g)).map
    (fun r =>
      { id := r.2.id, name := r.2.name,
        preview := previewOf r.1.text, created_at := r.2.created_at })

/-- Cypher DETACH DELETE of a set of nodes given by element ids: the
nodes are removed together with every edge incident to one of them. -/
def detachDeleteIds (g : Graph) (ids : List Nat) : Graph :=
  { nodes := g.nodes.filter (fun n => !(ids.contains n.elementId)),
    edges := g.edges.filter (fun e =>
      !(ids.contains e.src) && !(ids.contains e.tgt)) }

/-- Element ids matched by the first delete query, lines 165 to 168 of
src/server.py: chunks labelled DocumentChunk linked by an is underscore
part underscore of edge to a TextDocument node whose id property equals
the requested document id. -/
def chunkIdsOfDoc (g : Graph) (docId : Str) : List Nat :=
  g.edges.filterMap (fun e =>
    if e.typ == relIsPartOf then
      match findNode g e.src, findNode g e.tgt with
      | some c, some d =>
          if hasLabel c lblDocumentChunk && hasLabel d lblTextDocument &&
              d.id == some docId then
            some c.elementId
          else none
      | _, _ => none
    else none)

/-- Element ids matched by the second delete query, lines 171 to 174 of
src/server.py: TextDocument nodes whose id property equals the requested
document id. -/
def docNodeIds (g : Graph) (docId : Str) : List Nat :=
  (g.nodes.filter (fun n =>
    hasLabel n lblTextDocument && n.id == some docId)).map
    (fun n => n.elementId)

/-- Existence of an incoming has underscore summary edge from some
existing node, the pattern negated in the WHERE clause of the third
delete query on line 179 of src/server.py. -/
def hasIncomingSummary (g : Graph) (eid : Nat) : Bool :=
  g.edges.any (fun e =>
    e.typ == relHasSummary && e.tgt == eid && (findNode g e.src).isSome)

/-- Element ids matched by the third delete query, lines 177 to 181 of
src/server.py: every TextSummary node with no incoming has underscore
summary edge, anywhere in the graph. -/
def orphanSummaryIds (g : Graph) : List Nat :=
  (g.nodes.filter (fun n =>
    hasLabel n lblTextSummary && !(hasIncomingSummary g n.elementId))).map
    (fun n => n.elementId)

/-- Model of the graph mutation performed by the delete endpoint, lines
163 to 181 of src/server.py: the three queries run in order inside one
session, each against the state left by the previous one. -/
def delete_document (g : Graph) (docId : Str) : Graph :=
  let g1 := detachDeleteIds g (chunkIdsOfDoc g docId)
  let g2 := detachDeleteIds g1 (docNodeIds g1 docId)
  detachDeleteIds g2 (orphanSummaryIds g2)

/-- Node type shown by the graph dump, line 204 of src/server.py: the
first label different from the internal label, else Unknown. -/
def nodeTypeOf (labels : List Str) : Str :=
  (labels.find? (fun l => l != lblInternal)).getD typeUnknown

/-- Raw display label of a node, line 207 of src/server.py: the name
property when present, else the text property when present, else the
first 30 characters of the id property with a missing id read as the
empty string. -/
def rawLabelOf (n : Node) : Str :=
  match n.name with
  | some v => v
  | none =>
      match n.text with
      | some v => v
      | none => (n.id.getD []).take 30

/-- Truncated display label, lines 208 and 209 of src/server.py: a
truthy label longer than 40 characters is cut to 40 characters plus an
ellipsis marker. -/
def displayLabelOf (n : Node) : Str :=
  let label := rawLabelOf n
  if !label.isEmpty && 40 < label.length then label.take 40 ++ ellipsis
  else label

/-- Final label of a dumped node, line 213 of src/server.py: the display
label, or the node type when the display label is falsy. -/
def visLabelOf (n : Node) : Str :=
  let l := displayLabelOf n
  if l.isEmpty then nodeTypeOf n.labels else l

/-- Decimal string form of an element id, modelling the Python str call
on line 212 of src/server.py. -/
def natToStr (n : Nat) : Str := (toString n).toList

/-- Prefix of the tooltip string built on line 215 of src/server.py. -/
def titlePre : Str := "Type: ".toList

/-- Separator of the tooltip string on line 215 of src/server.py: the
doubled backslash in the f-string source produces a literal backslash
followed by the letter n, not a newline. -/
def backslashN : Str := ['\\', 'n']

/-- Node record returned by the graph dump, lines 211 to 216 of
src/server.py. -/
structure VisNode where
  id : Str
  label : Str
  type : Str
  title : Str
  deriving DecidableEq, Repr

/-- Projection of one node for the graph dump, lines 202 to 216 of
src/server.py. -/
def visNodeOf (n : Node) : VisNode :=
  { id := n.id.getD (natToStr n.elementId),
    label := visLabelOf n,
    type := nodeTypeOf n.labels,
    title := titlePre ++ nodeTypeOf n.labels ++ backslashN ++ visLabelOf n }

/-- Edge record returned by the graph dump, lines 219 to 226 of
src/server.py. -/
structure VisEdge where
  from_id : Option Str
  to_id : Option Str
  label : Str
  title : Str
  deriving DecidableEq, Repr

/-- Projection of one relationship for the graph dump: the id properties
of its endpoints and its type, lines 219 to 226 of src/server.py. -/
def visEdgeOf (g : Graph) (e : Edge) : VisEdge :=
  { from_id := (findNode g e.src).bind (fun n => n.id),
    to_id := (findNode g e.tgt).bind (fun n => n.id),
    label := e.typ, title := e.typ }

/-- Model of the graph dump endpoint, lines 198 to 229 of src/server.py:
the node query keeps at most 500 rows through its LIMIT clause and the
relationship query at most 1000 rows, each row projected as above.
Edges are assumed endpoint-valid as Neo4j guarantees, so the LIMIT 1000
applies to the edge list directly. -/
def get_graph_data_api (g : Graph) : List VisNode × List VisEdge :=
  ((g.nodes.take 500).map visNodeOf, (g.edges.take 1000).map (visEdgeOf g))

/-!
Model of the HTTP surface.  A handler body is an association list of
field names and values; a response is either a 200 body or an HTTP 500
with a detail string, corresponding to the raised HTTPException.  The
outcome of the underlying facade or store call is a parameter of each
handler model: an Except value for the awaited cognee calls, and a
StoreOutcome for the Neo4j sessions of the three graph endpoints.
-/

/-- Value of one field of a response body. -/
inductive JVal where
  | s (v : Str)
  | strs (v : List Str)
  | docs (v : List DocSummary)
  | vnodes (v : List VisNode)
  | vedges (v : List VisEdge)
  deriving DecidableEq, Repr

/-- HTTP response: a success body or a 500 error with a detail string. -/
inductive HResp where
  | ok (body : List (Str × JVal))
  | err500 (detail : Str)
  deriving DecidableEq, Repr

/-- Test for a success response. -/
def HResp.isOk : HResp → Bool
  | .ok _ => true
  | .err500 _ => false

/-- Field key status. -/
def statusKey : Str := "status".toList

/-- Field value success. -/
def successVal : Str := "success".toList

/-- Field key message. -/
def messageKey : Str := "message".toList

/-- Field key results. -/
def resultsKey : Str := "results".toList

/-- Field key documents. -/
def documentsKey : Str := "documents".toList

/-- Field key nodes. -/
def nodesKey : Str := "nodes".toList

/-- Field key edges. -/
def edgesKey : Str := "edges".toList

/-- Success message of the add handler, line 68 of src/server.py. -/
def msgAdd : Str := "Text added to knowledge base".toList

/-- Success message of the cognify handler, line 78 of src/server.py. -/
def msgCognify : Str := "Knowledge graph built successfully".toList

/-- Success message of the reset handler, line 117 of src/server.py. -/
def msgReset : Str := "Knowledge base reset".toList

/-- Success message of the delete handler, line 184 of src/server.py. -/
def msgDelete : Str := "Document deleted".toList

/-- Value of the status field of a success body, none when the field is
absent or the response is an error. -/
def statusOf : HResp → Option JVal
  | .ok body => body.lookup statusKey
  | .err500 _ => none

/-- Model of the add handler, lines 63 to 70 of src/server.py: on
success of the awaited cognee add call a status and message body, on
failure an HTTP 500 whose detail is the stringified exception. -/
def add_text (out : Except Str Unit) : HResp :=
  match out with
  | .ok _ => .ok [(statusKey, .s successVal), (messageKey, .s msgAdd)]
  | .error e => .err500 e

/-- Model of the cognify handler, lines 73 to 80 of src/server.py. -/
def cognify (out : Except Str Unit) : HResp :=
  match out with
  | .ok _ => .ok [(statusKey, .s successVal), (messageKey, .s msgCognify)]
  | .error e => .err500 e

/-- Model of the reset handler, lines 111 to 119 of src/server.py. -/
def reset (out : Except Str Unit) : HResp :=
  match out with
  | .ok _ => .ok [(statusKey, .s successVal), (messageKey, .s msgReset)]
  | .error e => .err500 e

/-- Model of the search handler, lines 83 to 108 of src/server.py: on
success of the awaited cognee search call, the parsed answers under a
status and results body; on failure an HTTP 500 whose detail is the
stringified exception. -/
def search (out : Except Str (List SearchResult)) : HResp :=
  match out with
  | .ok results =>
      .ok [(statusKey, .s successVal), (resultsKey, .strs (searchAnswers results))]
  | .error e => .err500 e

/-- Outcome of the Neo4j session work of one graph endpoint: either
every query succeeds, or some step raises an exception with the given
stringified message, with the given formatted traceback. -/
inductive StoreOutcome where
  | works
  | fails (msg : Str) (tb : Str)
  deriving DecidableEq, Repr

/-- Test for the successful outcome. -/
def StoreOutcome.isWorks : StoreOutcome → Bool
  | .works => true
  | .fails _ _ => false

/-- Resource trace of one graph endpoint invocation: whether the Neo4j
driver was closed and whether the session was closed by the time the
handler returned or raised. -/
structure OpTrace where
  driverClosed : Bool
  sessionClosed : Bool
  deriving DecidableEq, Repr

/-- Newline separating message and traceback in the detail string. -/
def newlineStr : Str := ['\n']

/-- Error detail of the graph endpoints, built by the f-string on lines
155, 187 and 232 of src/server.py: the stringified exception, a newline
and the formatted traceback. -/
def graphDetail (m tb : Str) : Str := m ++ newlineStr ++ tb

/-- Model of the document listing handler, lines 128 to 155 of
src/server.py, together with its resource trace.  The handler creates a
driver, opens a session in a with block, runs the query, closes the
driver on line 151 and returns the documents body without a status
field.  When a step inside the with block raises, the with block still
closes the session, but the driver close on line 151 is skipped because
control jumps to the except clause, which raises an HTTP 500 whose
detail is the message, a newline and the traceback. -/
def runListDocuments (g : Graph) (store : StoreOutcome) : HResp × OpTrace :=
  match store with
  | .works => (.ok [(documentsKey, .docs (list_documents g))], ⟨true, true⟩)
  | .fails m tb => (.err500 (graphDetail m tb), ⟨false, true⟩)

/-- Model of the delete handler, lines 158 to 187 of src/server.py,
together with its resource trace; the same driver and session discipline
as the document listing handler.  The graph mutation of the successful
path is the delete underscore document function above. -/
def runDeleteDocument (_docId : Str) (store : StoreOutcome) : HResp × OpTrace :=
  match store with
  | .works =>
      (.ok [(statusKey, .s successVal), (messageKey, .s msgDelete)], ⟨true, true⟩)
  | .fails m tb => (.err500 (graphDetail m tb), ⟨false, true⟩)

/-- Model of the graph dump handler, lines 190 to 232 of src/server.py,
together with its resource trace; the same driver and session discipline
as the document listing handler.  The success body holds the nodes and
edges of the bounded dump and no status field. -/
def runGraphData (g : Graph) (store : StoreOutcome) : HResp × OpTrace :=
  match store with
  | .works =>
      (.ok [(nodesKey, .vnodes (get_graph_data_api g).1),
            (edgesKey, .vedges (get_graph_data_api g).2)], ⟨true, true⟩)
  | .fails m tb => (.err500 (graphDetail m tb), ⟨false, true⟩)

/-!
Concrete instances used by counterexamples and witnesses below.
-/

/-- Sample answer string. -/
def sampleX : Str := "x".toList

/-- Sample answer string. -/
def sampleY : Str := "y".toList

/-- Sample error message. -/
def boomMsg : Str := "boom".toList

/-- Sample formatted traceback string. -/
def tbSample : Str := "Traceback (most recent call last)".toList

/-- Sample entity name of 16 characters, from the demo documents. -/
def acmeName : Str := "Acme Corporation".toList

/-- Sample id of 42 characters. -/
def longId : Str := "abc123abc123abc123abc123abc123abc123abc123".toList

/-- First 30 characters of the 42-character sample id. -/
def longIdPre30 : Str := "abc123abc123abc123abc123abc123".toList

/-- Entity label for sample nodes. -/
def lblEntity : Str := "Entity".toList

/-- Node with a name property and no text property. -/
def nodeAcme : Node :=
  { elementId := 1, labels := [lblInternal, lblEntity],
    id := some ("e1".toList), name := some acmeName, text := none,
    created_at := none, chunk_index := none }

/-- Node with neither name nor text and a 42-character id. -/
def nodeNoName : Node :=
  { elementId := 2, labels := [lblInternal, lblEntity],
    id := some longId, name := none, text := none,
    created_at := none, chunk_index := none }

/-- Node whose name property has 42 characters. -/
def nodeLongName : Node :=
  { elementId := 3, labels := [lblInternal, lblEntity],
    id := some ("e3".toList), name := some longId, text := none,
    created_at := none, chunk_index := none }

/-- Chunk text with a leading space. -/
def spaceHi : Str := [' ', 'h', 'i']

/-- The same text stripped. -/
def strippedHi : Str := ['h', 'i']

/-- Zero-index chunk whose text has a leading space. -/
def chunkC2 : Node :=
  { elementId := 0, labels := [lblDocumentChunk],
    id := some ("c1".toList), name := none, text := some spaceHi,
    created_at := none, chunk_index := some 0 }

/-- Document owning that chunk. -/
def docC2 : Node :=
  { elementId := 1, labels := [lblTextDocument],
    id := some ("d1".toList), name := some ("doc".toList), text := none,
    created_at := some 5, chunk_index := none }

/-- Graph with one document whose zero-index chunk text has a leading
space. -/
def graphC2 : Graph :=
  { nodes := [chunkC2, docC2],
    edges := [{ src := 0, tgt := 1, typ := relIsPartOf }] }

/-- Document listing row produced for that graph. -/
def docSummaryC2 : DocSummary :=
  { id := some ("d1".toList), name := some ("doc".toList),
    preview := strippedHi, created_at := some 5 }

/-- Preview computation exactly as claim C2 words it: the first 200
characters of the chunk text with newlines collapsed to spaces, returned
unchanged when at most 150 characters, else its first 150 characters
followed by an ellipsis marker.  Stated for comparison with the source
function previewOf, which additionally strips whitespace. -/
def claimedPreviewC2 (t : Str) : Str :=
  let collapsed := collapseNl (t.take 200)
  if collapsed.length ≤ 150 then collapsed
  else collapsed.take 150 ++ ellipsis

/-- Document node with id letter a, for the unknown-id delete witness. -/
def docC5 : Node :=
  { elementId := 1, labels := [lblTextDocument],
    id := some ("a".toList), name := none, text := none,
    created_at := some 1, chunk_index := none }

/-- Orphaned summary node, no incoming has underscore summary edge. -/
def orphanC5 : Node :=
  { elementId := 2, labels := [lblTextSummary],
    id := some ("s1".toList), name := none, text := none,
    created_at := none, chunk_index := none }

/-- Graph with one document and one orphaned summary. -/
def graphC5 : Graph := { nodes := [docC5, orphanC5], edges := [] }

/-- Unknown document id used by the delete witnesses. -/
def unknownId : Str := "b".toList

/-- Node with no name, no text and no id, labelled only internally plus
Entity, whose derived display label is therefore empty. -/
def nodeC10 : Node :=
  { elementId := 0, labels := [lblInternal, lblEntity],
    id := none, name := none, text := none,
    created_at := none, chunk_index := none }

/-- Graph containing only the label-less node. -/
def graphC10 : Graph := { nodes := [nodeC10], edges := [] }

/-- One loop iteration adds exactly the per-element contribution. -/
theorem answersStep_eq (answers : List Str) (result : SearchResult) :
    answersStep answers result = answers ++ normalizeContribution result := by
  cases result with
  | pyStr s => rfl
  | pyDict sr =>
      cases sr with
      | none => rfl
      | some v => cases v <;> rfl
  | withText t => rfl
  | otherObj s => rfl

/-- Accumulator form of the normalization loop. -/
theorem searchAnswers_eq_aux (results : List SearchResult) :
    ∀ acc : List Str,
      results.foldl answersStep acc
        = acc ++ (results.map normalizeContribution).flatten := by
  induction results with
  | nil => intro acc; simp
  | cons r rs ih =>
      intro acc
      simp only [List.foldl_cons, List.map_cons, List.flatten_cons, ih,
        answersStep_eq, List.append_assoc]

/-- Membership is preserved by stable insertion. -/
theorem mem_insertLe {α : Type} (le : α → α → Bool) (a x : α) (l : List α) :
    x ∈ insertLe le a l ↔ x = a ∨ x ∈ l := by
  induction l with
  | nil => simp [insertLe]
  | cons b bs ih =>
      by_cases h : le a b
      · simp [insertLe, h]
      · simp [insertLe, h, ih]
        tauto

/-- Membership is preserved by the insertion sort. -/
theorem mem_sortLe {α : Type} (le : α → α → Bool) (x : α) (l : List α) :
    x ∈ sortLe le l ↔ x ∈ l := by
  induction l with
  | nil => simp [sortLe]
  | cons b bs ih => simp [sortLe, mem_insertLe, ih]

/-- Detaching an empty id set leaves the graph unchanged. -/
theorem detachDeleteIds_nil (g : Graph) : detachDeleteIds g [] = g := by
  cases g with
  | mk nodes edges => simp [detachDeleteIds]

/-- Surviving edges of a detach deletion come from the original graph. -/
theorem mem_edges_of_detach {g : Graph} {ids : List Nat} {e : Edge}
    (h : e ∈ (detachDeleteIds g ids).edges) : e ∈ g.edges :=
  (List.mem_filter.mp h).1

/-- C1, counterexample: claim C1 states that no result element of the
search handler contributes more than one string and none contributes
zero strings, a dict contributing the first element of its list.  On the
code of lines 95 to 100 of src/server.py, a dict whose search underscore
result value is a two-element list contributes both elements, and a dict
without the key contributes nothing. -/
theorem C1_counterexample :
    searchAnswers [SearchResult.pyDict (some (SRVal.list [sampleX, sampleY]))]
        = [sampleX, sampleY] ∧
    (searchAnswers
        [SearchResult.pyDict (some (SRVal.list [sampleX, sampleY]))]).length ≠ 1 ∧
    searchAnswers [SearchResult.pyDict none] = [] :=
  ⟨rfl, by decide, rfl⟩

/-- C1, amended: the search handler normalizes the result sequence into
the concatenation, in order, of per-element contributions: a plain
string contributes itself; a dict contributes every element of its
search underscore result value when that value is a list, the missing
key defaulting to the empty list, and otherwise the stringified value;
an object with a text accessor contributes its text; any other object
contributes its stringified form.  A single element may therefore
contribute zero, one or several strings. -/
theorem C1_search_normalization_amended (results : List SearchResult) :
    searchAnswers results = (results.map normalizeContribution).flatten := by
  simpa using searchAnswers_eq_aux results []

/-- C6: when the underlying search returns an empty sequence the handler
returns a success response with an empty results list; a success of the
underlying call always yields a success response, and an error response
arises exactly from a thrown failure of the underlying call. -/
theorem C6_empty_search_is_success :
    search (Except.ok []) =
      HResp.ok [(statusKey, JVal.s successVal), (resultsKey, JVal.strs [])] ∧
    (∀ results, (search (Except.ok results)).isOk = true) ∧
    (∀ e, search (Except.error e) = HResp.err500 e) :=
  ⟨rfl, fun _ => rfl, fun _ => rfl⟩

/-- C4: the graph dump returns at most 500 nodes and at most 1000 edges
for every underlying graph state. -/
theorem C4_graph_dump_caps (g : Graph) :
    (get_graph_data_api g).1.length ≤ 500 ∧
    (get_graph_data_api g).2.length ≤ 1000 := by
  constructor <;> simp [get_graph_data_api]

/-- C7, counterexample: claim C7 states that every graph-store operation
releases its store connection on every exit path.  On the code, when a
step inside the session raises, control jumps to the except clause of
lines 153 to 155 of src/server.py and the driver close call on line 151
is skipped: the trace of a failing document listing shows the session
closed but the driver not closed. -/
theorem C7_counterexample :
    (runListDocuments { nodes := [], edges := [] }
        (StoreOutcome.fails boomMsg tbSample)).2.driverClosed = false ∧
    (runListDocuments { nodes := [], edges := [] }
        (StoreOutcome.fails boomMsg tbSample)).2.sessionClosed = true :=
  ⟨rfl, rfl⟩

/-- C7, amended: each of the three graph endpoints opens its own driver
and session; the session is released on every exit path through the with
block, while the driver is closed exactly when the operation succeeds —
on a failing step the driver close is skipped. -/
theorem C7_resource_release_amended (g : Graph) (docId : Str)
    (store : StoreOutcome) :
    (runListDocuments g store).2 = ⟨store.isWorks, true⟩ ∧
    (runDeleteDocument docId store).2 = ⟨store.isWorks, true⟩ ∧
    (runGraphData g store).2 = ⟨store.isWorks, true⟩ := by
  cases store <;> exact ⟨rfl, rfl, rfl⟩

/-- C8, counterexample: claim C8 states that every successful handler
response contains a status field with value success.  The successful
document listing response of lines 128 to 152 of src/server.py is a bare
documents body with no status field. -/
theorem C8_counterexample :
    statusOf (runListDocuments { nodes := [], edges := [] }
        StoreOutcome.works).1 = none ∧
    ((runListDocuments { nodes := [], edges := [] }
        StoreOutcome.works).1).isOk = true :=
  ⟨rfl, rfl⟩

/-- C8, amended: the add, cognify, reset, search and delete handlers
wrap success as a body carrying a status field with value success, while
the document listing and graph dump handlers return bare payload bodies
without a status field; every thrown failure becomes an HTTP 500 whose
detail is the stringified error, with a newline and the formatted
traceback appended for the three graph endpoints. -/
theorem C8_envelopes_amended :
    (∀ u, statusOf (add_text (Except.ok u)) = some (JVal.s successVal)) ∧
    (∀ e, add_text (Except.error e) = HResp.err500 e) ∧
    (∀ u, statusOf (cognify (Except.ok u)) = some (JVal.s successVal)) ∧
    (∀ e, cognify (Except.error e) = HResp.err500 e) ∧
    (∀ u, statusOf (reset (Except.ok u)) = some (JVal.s successVal)) ∧
    (∀ e, reset (Except.error e) = HResp.err500 e) ∧
    (∀ results, statusOf (search (Except.ok results)) = some (JVal.s successVal)) ∧
    (∀ e, search (Except.error e) = HResp.err500 e) ∧
    (∀ docId, statusOf (runDeleteDocument docId StoreOutcome.works).1
        = some (JVal.s successVal)) ∧
    (∀ g, statusOf (runListDocuments g StoreOutcome.works).1 = none ∧
        ((runListDocuments g StoreOutcome.works).1).isOk = true) ∧
    (∀ g, statusOf (runGraphData g StoreOutcome.works).1 = none ∧
        ((runGraphData g StoreOutcome.works).1).isOk = true) ∧
    (∀ g m tb, (runListDocuments g (StoreOutcome.fails m tb)).1
        = HResp.err500 (m ++ newlineStr ++ tb)) ∧
    (∀ docId m tb, (runDeleteDocument docId (StoreOutcome.fails m tb)).1
        = HResp.err500 (m ++ newlineStr ++ tb)) ∧
    (∀ g m tb, (runGraphData g (StoreOutcome.fails m tb)).1
        = HResp.err500 (m ++ newlineStr ++ tb)) :=
  ⟨fun _ => rfl, fun _ => rfl, fun _ => rfl, fun _ => rfl, fun _ => rfl,
   fun _ => rfl, fun _ => rfl, fun _ => rfl, fun _ => rfl,
   fun _ => ⟨rfl, rfl⟩, fun _ => ⟨rfl, rfl⟩,
   fun _ _ _ => rfl, fun _ _ _ => rfl, fun _ _ _ => rfl⟩

/-- Branch equation of the preview computation when the stripped text
fits in 150 characters. -/
theorem previewOf_of_le {t : Option Str}
    (h : (pyStrip (collapseNl ((t.getD []).take 200))).length ≤ 150) :
    previewOf t = pyStrip (collapseNl ((t.getD []).take 200)) := by
  have hnl : ¬ (150 < (pyStrip (collapseNl ((t.getD []).take 200))).length) := by
    omega
  simp [previewOf, hnl]

/-- Branch equation of the preview computation when the stripped text
exceeds 150 characters. -/
theorem previewOf_of_gt {t : Option Str}
    (h : 150 < (pyStrip (collapseNl ((t.getD []).take 200))).length) :
    previewOf t
      = (pyStrip (collapseNl ((t.getD []).take 200))).take 150 ++ ellipsis := by
  simp [previewOf, h]

/-- Chunk node of a row of the document listing join has chunk index
zero. -/
theorem chunk_index_of_mem_docChunkRows {g : Graph} {c dn : Node}
    (h : (c, dn) ∈ docChunkRows g) : c.chunk_index = some 0 := by
  obtain ⟨e, he, hfe⟩ := List.mem_filterMap.mp h
  by_cases h1 : (e.typ == relIsPartOf) = true
  · simp only [h1, if_true] at hfe
    cases hsrc : findNode g e.src with
    | none => simp [hsrc] at hfe
    | some c1 =>
        cases htgt : findNode g e.tgt with
        | none => simp [hsrc, htgt] at hfe
        | some d1 =>
            simp only [hsrc, htgt] at hfe
            by_cases h2 : (hasLabel c1 lblDocumentChunk &&
                (hasLabel d1 lblTextDocument && (c1.chunk_index == some 0))) = true
            · have h2a : (hasLabel c1 lblDocumentChunk &&
                  hasLabel d1 lblTextDocument && (c1.chunk_index == some 0)) = true := by
                rw [Bool.and_assoc]; exact h2
              simp only [h2a, if_true, Option.some.injEq, Prod.mk.injEq] at hfe
              obtain ⟨hc, _⟩ := hfe
              subst hc
              simp only [Bool.and_eq_true] at h2a
              exact eq_of_beq h2a.2
            · have h2a : (hasLabel c1 lblDocumentChunk &&
                  hasLabel d1 lblTextDocument && (c1.chunk_index == some 0)) = false := by
                rw [Bool.and_assoc]; simpa using h2
              simp [h2a] at hfe
  · simp [h1] at hfe

/-- C2, counterexample: claim C2 states that a collapsed chunk text of
at most 150 characters is returned unchanged as the preview.  For a
zero-index chunk whose text starts with a space, the code of line 143 of
src/server.py also strips the leading space, so the listed preview
differs from the collapsed text. -/
theorem C2_counterexample :
    (list_documents graphC2).map (fun d => d.preview) = [strippedHi] ∧
    claimedPreviewC2 spaceHi = spaceHi ∧
    strippedHi ≠ spaceHi := by
  refine ⟨by decide, by decide, by decide⟩

/-- C2, amended: every row listed by the document listing takes its
preview from the zero-index chunk of its join row as the first 200
characters of the chunk text with newlines collapsed to spaces and
leading and trailing whitespace stripped; the stripped text is returned
unchanged when its length is at most 150 and is otherwise truncated to
its first 150 characters followed by an ellipsis marker. -/
theorem C2_preview_amended (g : Graph) (d : DocSummary)
    (hd : d ∈ list_documents g) :
    ∃ c dn : Node, (c, dn) ∈ docChunkRows g ∧ c.chunk_index = some 0 ∧
      d.preview = previewOf c.text ∧
      ((pyStrip (collapseNl ((c.text.getD []).take 200))).length ≤ 150 →
        d.preview = pyStrip (collapseNl ((c.text.getD []).take 200))) ∧
      (150 < (pyStrip (collapseNl ((c.text.getD []).take 200))).length →
        d.preview
          = (pyStrip (collapseNl ((c.text.getD []).take 200))).take 150
              ++ ellipsis) := by
  unfold list_documents at hd
  obtain ⟨r, hr, hrd⟩ := List.mem_map.mp hd
  rw [mem_sortLe] at hr
  obtain ⟨c, dn⟩ := r
  have hprev : d.preview = previewOf c.text := by rw [← hrd]
  refine ⟨c, dn, hr, chunk_index_of_mem_docChunkRows hr, hprev, ?_, ?_⟩
  · intro hle
    rw [hprev, previewOf_of_le hle]
  · intro hgt
    rw [hprev, previewOf_of_gt hgt]

/-- C2, witness at the concrete graph: the single listed row has its
preview computed from the stripped chunk text. -/
theorem C2_preview_amended_witness :
    ∃ c dn : Node, (c, dn) ∈ docChunkRows graphC2 ∧ c.chunk_index = some 0 ∧
      docSummaryC2.preview = previewOf c.text ∧
      ((pyStrip (collapseNl ((c.text.getD []).take 200))).length ≤ 150 →
        docSummaryC2.preview = pyStrip (collapseNl ((c.text.getD []).take 200))) ∧
      (150 < (pyStrip (collapseNl ((c.text.getD []).take 200))).length →
        docSummaryC2.preview
          = (pyStrip (collapseNl ((c.text.getD []).take 200))).take 150
              ++ ellipsis) :=
  C2_preview_amended graphC2 docSummaryC2 (by decide)

/-- C3: the display label of a dumped node is derived with precedence
name property, else text property, else the first 30 characters of the
id property; a derived label longer than 40 characters is truncated to
40 characters plus an ellipsis marker and one of at most 40 characters
is kept as derived.  In particular a node named Acme Corporation with no
text property keeps that name, and a node with neither name nor text and
a 42-character id gets the first 30 characters of the id. -/
theorem C3_label_derivation :
    (∀ n : Node,
      (∀ v, n.name = some v → rawLabelOf n = v) ∧
      (n.name = none → ∀ v, n.text = some v → rawLabelOf n = v) ∧
      (n.name = none → n.text = none →
        rawLabelOf n = (n.id.getD []).take 30) ∧
      (40 < (rawLabelOf n).length →
        displayLabelOf n = (rawLabelOf n).take 40 ++ ellipsis) ∧
      ((rawLabelOf n).length ≤ 40 → displayLabelOf n = rawLabelOf n)) ∧
    displayLabelOf nodeAcme = acmeName ∧
    displayLabelOf nodeNoName = longIdPre30 := by
  refine ⟨fun n => ⟨?_, ?_, ?_, ?_, ?_⟩, by decide, by decide⟩
  · intro v hv; simp [rawLabelOf, hv]
  · intro hn v hv; simp [rawLabelOf, hn, hv]
  · intro hn ht; simp [rawLabelOf, hn, ht]
  · intro hlen
    have hne : (rawLabelOf n).isEmpty = false := by
      cases hr : rawLabelOf n with
      | nil => rw [hr] at hlen; simp at hlen
      | cons a l => simp
    simp [displayLabelOf, hne, hlen]
  · intro hlen
    have hnl : ¬ (40 < (rawLabelOf n).length) := by omega
    simp [displayLabelOf, hnl]

/-- C3, witness at concrete nodes: the name wins for the Acme node, a
42-character name is truncated at 40 plus the marker, and the short Acme
name is kept untruncated. -/
theorem C3_label_derivation_witness :
    rawLabelOf nodeAcme = acmeName ∧
    displayLabelOf nodeLongName = (rawLabelOf nodeLongName).take 40 ++ ellipsis ∧
    displayLabelOf nodeAcme = rawLabelOf nodeAcme :=
  ⟨(C3_label_derivation.1 nodeAcme).1 acmeName rfl,
   (C3_label_derivation.1 nodeLongName).2.2.2.1 (by decide),
   (C3_label_derivation.1 nodeAcme).2.2.2.2 (by decide)⟩

/-- C10: in the graph dump, a node whose derived display label is empty
falls back to its type label, the first non-internal label or Unknown;
when no label of the underlying graph is the empty string, every dumped
node has a non-empty label. -/
theorem C10_empty_label_fallback (g : Graph)
    (hlabels : ∀ n ∈ g.nodes, ∀ l ∈ n.labels, l ≠ []) :
    ∀ vn ∈ (get_graph_data_api g).1,
      vn.label ≠ [] ∧
      ∃ n ∈ g.nodes, vn = visNodeOf n ∧
        (displayLabelOf n = [] → vn.label = nodeTypeOf n.labels) := by
  intro vn hvn
  simp only [get_graph_data_api] at hvn
  obtain ⟨n, hn, hvneq⟩ := List.mem_map.mp hvn
  have hng : n ∈ g.nodes := List.mem_of_mem_take hn
  have htype : nodeTypeOf n.labels ≠ [] := by
    unfold nodeTypeOf
    cases hf : n.labels.find? (fun l => l != lblInternal) with
    | none => simp [typeUnknown]
    | some t =>
        simp only [Option.getD]
        exact hlabels n hng t (List.mem_of_find?_eq_some hf)
  subst hvneq
  refine ⟨?_, n, hng, rfl, ?_⟩
  · by_cases hdl : (displayLabelOf n).isEmpty = true
    · have hv : visLabelOf n = nodeTypeOf n.labels := by simp [visLabelOf, hdl]
      simpa [visNodeOf, hv] using htype
    · have hb : (displayLabelOf n).isEmpty = false := by
        simpa [Bool.not_eq_true] using hdl
      have hv : visLabelOf n = displayLabelOf n := by simp [visLabelOf, hb]
      have hne : displayLabelOf n ≠ [] := by
        intro hcon; rw [hcon] at hb; simp at hb
      simpa [visNodeOf, hv] using hne
  · intro hdl
    have hb : (displayLabelOf n).isEmpty = true := by simp [hdl]
    simp [visNodeOf, visLabelOf, hb]

/-- Unfolded form of the delete mutation, with the intermediate states
written out. -/
theorem delete_document_unfold (g : Graph) (docId : Str) :
    delete_document g docId
      = detachDeleteIds
          (detachDeleteIds (detachDeleteIds g (chunkIdsOfDoc g docId))
            (docNodeIds (detachDeleteIds g (chunkIdsOfDoc g docId)) docId))
          (orphanSummaryIds
            (detachDeleteIds (detachDeleteIds g (chunkIdsOfDoc g docId))
              (docNodeIds (detachDeleteIds g (chunkIdsOfDoc g docId)) docId))) :=
  rfl

/-- First delete query matches nothing when no document node has the
requested id. -/
theorem chunkIdsOfDoc_eq_nil {g : Graph} {docId : Str}
    (hUnknown : ∀ n ∈ g.nodes,
      hasLabel n lblTextDocument = true → n.id ≠ some docId) :
    chunkIdsOfDoc g docId = [] := by
  unfold chunkIdsOfDoc
  rw [List.filterMap_eq_nil_iff]
  intro e he
  by_cases h1 : (e.typ == relIsPartOf) = true
  · simp only [h1, if_true]
    cases hsrc : findNode g e.src with
    | none => rfl
    | some c =>
        cases htgt : findNode g e.tgt with
        | none => rfl
        | some d =>
            have hd : d ∈ g.nodes := List.mem_of_find?_eq_some htgt
            by_cases hlab : hasLabel d lblTextDocument = true
            · have hid : (d.id == some docId) = false := by
                have := hUnknown d hd hlab
                simpa using this
              simp [hid]
            · have hlab2 : hasLabel d lblTextDocument = false := by
                simpa [Bool.not_eq_true] using hlab
              simp [hlab2]
  · have h1f : (e.typ == relIsPartOf) = false := by
      simpa [Bool.not_eq_true] using h1
    simp [h1f]

/-- Second delete query matches nothing when no document node has the
requested id. -/
theorem docNodeIds_eq_nil {g : Graph} {docId : Str}
    (hUnknown : ∀ n ∈ g.nodes,
      hasLabel n lblTextDocument = true → n.id ≠ some docId) :
    docNodeIds g docId = [] := by
  unfold docNodeIds
  have hfil : g.nodes.filter
      (fun n => hasLabel n lblTextDocument && (n.id == some docId)) = [] := by
    rw [List.filter_eq_nil_iff]
    intro n hn
    by_cases hlab : hasLabel n lblTextDocument = true
    · have hid : (n.id == some docId) = false := by
        have := hUnknown n hn hlab
        simpa using this
      simp [hid]
    · have hlab2 : hasLabel n lblTextDocument = false := by
        simpa [Bool.not_eq_true] using hlab
      simp [hlab2]
  rw [hfil]
  rfl

/-- C5: deleting an unknown document id returns the success envelope,
closes driver and session, and leaves the document nodes of the graph
unchanged.  Neo4j guarantees the element id uniqueness hypothesis, and
the cognee schema never labels one node both TextDocument and
TextSummary, which is the disjointness hypothesis. -/
theorem C5_delete_unknown_id (g : Graph) (docId : Str)
    (hUniq : (g.nodes.map Node.elementId).Nodup)
    (hUnknown : ∀ n ∈ g.nodes,
      hasLabel n lblTextDocument = true → n.id ≠ some docId)
    (hDisj : ∀ n ∈ g.nodes,
      hasLabel n lblTextDocument = true → hasLabel n lblTextSummary = false) :
    runDeleteDocument docId StoreOutcome.works
        = (HResp.ok [(statusKey, JVal.s successVal), (messageKey, JVal.s msgDelete)],
           { driverClosed := true, sessionClosed := true }) ∧
    (delete_document g docId).nodes.filter (fun n => hasLabel n lblTextDocument)
        = g.nodes.filter (fun n => hasLabel n lblTextDocument) := by
  refine ⟨rfl, ?_⟩
  rw [delete_document_unfold,
      chunkIdsOfDoc_eq_nil hUnknown, detachDeleteIds_nil,
      docNodeIds_eq_nil hUnknown, detachDeleteIds_nil]
  show ((g.nodes.filter
      (fun n => !((orphanSummaryIds g).contains n.elementId))).filter
      (fun n => hasLabel n lblTextDocument)) = _
  rw [List.filter_filter]
  apply List.filter_congr
  intro n hn
  by_cases hdoc : hasLabel n lblTextDocument = true
  · suffices hkeep : ((orphanSummaryIds g).contains n.elementId) = false by
      have hnotmem : n.elementId ∉ orphanSummaryIds g := by
        intro hmemid
        have hcontra : ((orphanSummaryIds g).contains n.elementId) = true := by
          simpa [List.elem_iff] using hmemid
        rw [hkeep] at hcontra
        exact Bool.false_ne_true hcontra
      simp [hdoc, hnotmem]
    by_contra hc
    have hmemid : n.elementId ∈ orphanSummaryIds g := by
      have : ((orphanSummaryIds g).contains n.elementId) = true := by
        simpa [Bool.not_eq_false] using hc
      simpa [List.elem_iff] using this
    obtain ⟨m, hm, hmn⟩ := List.mem_map.mp hmemid
    have hmg : m ∈ g.nodes := (List.mem_filter.mp hm).1
    have hmsum : hasLabel m lblTextSummary = true := by
      have := (List.mem_filter.mp hm).2
      simp only [Bool.and_eq_true] at this
      exact this.1
    have hmeq : m = n := List.inj_on_of_nodup_map hUniq hmg hn hmn
    rw [hmeq] at hmsum
    rw [hDisj n hn hdoc] at hmsum
    exact Bool.false_ne_true hmsum
  · have hdoc2 : hasLabel n lblTextDocument = false := by
      simpa [Bool.not_eq_true] using hdoc
    simp [hdoc2]

/-- C5, witness: a graph with one document with id letter a and one
orphaned summary, deleted with the unknown id letter b, keeps its
document node. -/
theorem C5_delete_unknown_id_witness :
    runDeleteDocument unknownId StoreOutcome.works
        = (HResp.ok [(statusKey, JVal.s successVal), (messageKey, JVal.s msgDelete)],
           { driverClosed := true, sessionClosed := true }) ∧
    (delete_document graphC5 unknownId).nodes.filter
        (fun n => hasLabel n lblTextDocument)
      = graphC5.nodes.filter (fun n => hasLabel n lblTextDocument) :=
  C5_delete_unknown_id graphC5 unknownId (by decide) (by decide) (by decide)

/-- C9: every delete call sweeps globally: any summary node with no
incoming has underscore summary edge anywhere in the graph is removed,
whatever document id is requested and whether or not it exists. -/
theorem C9_global_orphan_sweep (g : Graph) (docId : Str) (s : Node)
    (_hs : s ∈ g.nodes)
    (hsum : hasLabel s lblTextSummary = true)
    (horphan : ∀ e ∈ g.edges,
      ¬(e.typ = relHasSummary ∧ e.tgt = s.elementId)) :
    s ∉ (delete_document g docId).nodes := by
  intro hmem
  rw [delete_document_unfold] at hmem
  set g1 := detachDeleteIds g (chunkIdsOfDoc g docId) with hg1
  set g2 := detachDeleteIds g1 (docNodeIds g1 docId) with hg2
  have h1 := List.mem_filter.mp hmem
  have hsg2 : s ∈ g2.nodes := h1.1
  have hnot : ((orphanSummaryIds g2).contains s.elementId) = false := by
    have hk := h1.2
    simpa [Bool.not_eq_true] using hk
  have hin : s.elementId ∈ orphanSummaryIds g2 := by
    unfold orphanSummaryIds
    apply List.mem_map.mpr
    refine ⟨s, ?_, rfl⟩
    apply List.mem_filter.mpr
    refine ⟨hsg2, ?_⟩
    have hinc : hasIncomingSummary g2 s.elementId = false := by
      unfold hasIncomingSummary
      rw [List.any_eq_false]
      intro e he
      have heg : e ∈ g.edges :=
        mem_edges_of_detach (mem_edges_of_detach he)
      intro hconj
      simp only [Bool.and_eq_true] at hconj
      exact horphan e heg ⟨eq_of_beq hconj.1.1, eq_of_beq hconj.1.2⟩
    simp [hsum, hinc]
  have : ((orphanSummaryIds g2).contains s.elementId) = true := by
    simpa [List.elem_iff] using hin
  rw [hnot] at this
  exact Bool.false_ne_true this

/-- C9, witness: the orphaned summary of the concrete graph is removed
by a delete call with an id matching no document. -/
theorem C9_global_orphan_sweep_witness :
    orphanC5 ∉ (delete_document graphC5 unknownId).nodes :=
  C9_global_orphan_sweep graphC5 unknownId orphanC5 (by decide) (by decide)
    (by decide)

/-- C10, witness: the node with no name, no text and no id is dumped
with a non-empty label through the type fallback. -/
theorem C10_empty_label_fallback_witness :
    (visNodeOf nodeC10).label ≠ [] ∧
    ∃ n ∈ graphC10.nodes, visNodeOf nodeC10 = visNodeOf n ∧
      (displayLabelOf n = [] → (visNodeOf nodeC10).label = nodeTypeOf n.labels) :=
  C10_empty_label_fallback graphC10 (by decide) (visNodeOf nodeC10) (by decide)

end Cognee
